import Mathlib

/-!
Verification development for the Deep-Learn-Oil 1-D neural-network library
(`src/nnet1d/nnet1d.py` plus the activation/cost functions in
`src/scraps/nnet_lib/nnet1d/nnet_fns.py`).

Numeric values carried by the backend (float32 tensors) are modelled as
rationals; matrices are lists of rows.  The layer classes `ConvPoolLayer`
and `FullyConnectedLayer` live in `layers1d.py`, which is not part of the
source tree here, so their attribute layout is modelled from the spec
(section 3, "Layer"); every operation of `NNet1D` itself is translated
directly from `nnet1d.py`.
-/

set_option autoImplicit false

namespace DeepLearnOil

/-! ### Activation and cost functions (`nnet_fns.py`) -/

/-- Rectified linear unit, `T.switch(x < 0, 0, x)` (`nnet_fns.py`, `relu`). -/
def relu (x : ℚ) : ℚ := if x < 0 then 0 else x

/-- Arithmetic mean of a list of values, modelling `np.mean` / `T.mean`
(division by zero for the empty list is the junk value 0 in `ℚ`). -/
def mean (l : List ℚ) : ℚ := l.sum / l.length

/-- Mean squared elementwise error, `T.mean(T.sqr(y - output))`
(`nnet_fns.py`, `sqr_error_cost`). -/
def sqr_error_cost (y out : List ℚ) : ℚ :=
  mean ((y.zip out).map (fun p => (p.1 - p.2) ^ 2))

/-- Mean absolute elementwise error, `T.mean(T.abs_(y - output))`
(`nnet_fns.py`, `abs_error_cost`). -/
def abs_error_cost (y out : List ℚ) : ℚ :=
  mean ((y.zip out).map (fun p => |p.1 - p.2|))

/-- A Python function value stored in the `cost_fn` slot: either a
one-argument activation function or a two-argument reduction cost. -/
inductive PyFn where
  | unary (f : ℚ → ℚ)
  | binary (g : List ℚ → List ℚ → ℚ)

/-- The function object `relu` as a Python value. -/
def reluFn : PyFn := PyFn.unary relu

/-- The function object `sqr_error_cost` as a Python value. -/
def sqrErrorCostFn : PyFn := PyFn.binary sqr_error_cost

/-- The function object `abs_error_cost` as a Python value. -/
def absErrorCostFn : PyFn := PyFn.binary abs_error_cost

/-! ### Layer model

`layers1d.py` is not in the source tree; the layer attributes below are
modelled from the spec. -/

/-- Modelled from the spec: a convolution+pool layer's attributes are the
filter bank shape `(count, length)`, the pooling window size, the input
channel count, the input length and the batch size (section 3); its 4-D
output shape is `(batch, filters, 1, reduced_length)` with
`pooled_length = floor((input_length - filter_length + 1) / pool_size)`
(section 4.2). -/
structure ConvPoolLayer where
  batch_size : ℕ
  input_number : ℕ
  input_length : ℕ
  filter_shape : ℕ × ℕ
  poolsize : ℕ
  deriving DecidableEq, Repr

/-- Pooled output length `floor((input_length - filter_length + 1) / pool_size)`
(spec section 4.2). -/
def ConvPoolLayer.pooled_length (c : ConvPoolLayer) : ℕ :=
  (c.input_length - c.filter_shape.2 + 1) / c.poolsize

/-- The 4-D output shape `(batch, filters, 1, pooled_length)` of a
convolution+pool layer (spec section 3). -/
def ConvPoolLayer.output_shape (c : ConvPoolLayer) : ℕ × ℕ × ℕ × ℕ :=
  (c.batch_size, c.filter_shape.1, 1, c.pooled_length)

/-- Modelled from the spec: a fully-connected layer's shape attributes are its
input length and output length; `output_shape` is the declared output length,
compared against `n_out` by `build` (`nnet1d.py` line 123). -/
structure FullyConnectedLayer where
  input_length : ℕ
  output_shape : ℕ
  deriving DecidableEq, Repr

/-- A layer of the network: one of the two variants dispatched on by
`isinstance` checks in `nnet1d.py`. -/
inductive Layer where
  | conv (c : ConvPoolLayer)
  | fc (f : FullyConnectedLayer)
  deriving DecidableEq, Repr

/-! ### Network assembly (`NNet1D.__init__`, `add_conv_pool_layer`,
`add_fully_connected_layer`, `build`) -/

/-- The shape-level state of an `NNet1D` during assembly: the input and
output widths read off the training data, the batch size, and the ordered
layer list (`nnet1d.py` lines 25, 33, 46-47). -/
structure NNet1D where
  n_in : ℕ
  n_out : ℕ
  batch_size : ℕ
  layers : List Layer
  deriving DecidableEq, Repr

/-- The default value of the `cost_fn` keyword of `NNet1D.__init__`
(`nnet1d.py` line 20): the function object `relu`. -/
def NNet1D.default_cost_fn : PyFn := reluFn

/-- Batch counts computed by `NNet1D.__init__` (lines 49-55): each
partition's row count integer-divided by the batch size (Python 2 `/=` on
ints truncates). -/
def NNet1D.initBatchCounts (nTrainRows nValidRows nTestRows batch_size : ℕ) :
    ℕ × ℕ × ℕ :=
  (nTrainRows / batch_size, nValidRows / batch_size, nTestRows / batch_size)

/-- `add_conv_pool_layer` (lines 57-85): resolve the input shape from the
last layer (or the raw input when the layer list is empty) and append a new
convolution+pool layer. -/
def NNet1D.add_conv_pool_layer (net : NNet1D)
    (filters filter_length poolsize : ℕ) : NNet1D :=
  let inp : ℕ × ℕ :=
    match net.layers.getLast? with
    | none => (1, net.n_in)
    | some (Layer.conv c) => (c.output_shape.2.1, c.output_shape.2.2.2)
    | some (Layer.fc f) => (1, f.output_shape)
  let layer : ConvPoolLayer :=
    { batch_size := net.batch_size
      input_number := inp.1
      input_length := inp.2
      filter_shape := (filters, filter_length)
      poolsize := poolsize }
  { net with layers := net.layers ++ [Layer.conv layer] }

/-- The input length computed by `add_fully_connected_layer` (lines 93-107):
`n_in` when the layer list is empty; `filter_shape[1] * output_shape[3]` when
the last layer is a convolution+pool layer (line 102); the predecessor's
`output_shape` when it is fully connected. -/
def NNet1D.fcInputLength (net : NNet1D) : ℕ :=
  match net.layers.getLast? with
  | none => net.n_in
  | some (Layer.conv c) => c.filter_shape.2 * c.output_shape.2.2.2
  | some (Layer.fc f) => f.output_shape

/-- `add_fully_connected_layer` (lines 87-117): the output length defaults to
`n_out`, the input length is `fcInputLength`, and the new layer is appended. -/
def NNet1D.add_fully_connected_layer (net : NNet1D)
    (output_length : Option ℕ) : NNet1D :=
  let outLen := output_length.getD net.n_out
  { net with
      layers :=
        net.layers ++ [Layer.fc { input_length := net.fcInputLength
                                  output_shape := outLen }] }

/-- The ways the precondition-checking prefix of `build` (lines 122-123) can
fail: `self.layers[-1]` on an empty list raises `IndexError`; a failing
`assert` raises `AssertionError`. -/
inductive BuildError where
  | indexError
  | assertionError
  deriving DecidableEq, Repr

/-- The precondition-checking prefix of `build` (lines 119-123): looking up
`self.layers[-1]` fails with `IndexError` on an empty layer list; otherwise
`assert isinstance(self.layers[-1], FullyConnectedLayer)` and
`assert self.layers[-1].output_shape == self.n_out` run in that order. -/
def NNet1D.buildCheck (layers : List Layer) (n_out : ℕ) :
    Except BuildError Unit :=
  match layers.getLast? with
  | none => Except.error BuildError.indexError
  | some (Layer.fc f) =>
      if f.output_shape = n_out then Except.ok ()
      else Except.error BuildError.assertionError
  | some (Layer.conv _) => Except.error BuildError.assertionError

/-! ### Momentum updates (`gradient_updates_momentum`, lines 221-237) -/

/-- The initial value of the velocity accumulator created for a parameter:
`param.get_value() * 0.` (line 226). -/
def velocityInit (p : ℚ) : ℚ := p * 0

/-- One simultaneous application of the two update pairs produced by
`gradient_updates_momentum` for a parameter with current value `pv.1`,
velocity accumulator `pv.2` and gradient `g` (lines 228-234): the backend
applies `(param, param - learning_rate * param_update)` and
`(param_update, momentum * param_update + (1 - momentum) * grad)` using the
pre-step values on the right-hand sides, so the parameter steps with the
previous velocity and the velocity is refreshed afterward. -/
def momentumStep (learning_rate momentum : ℚ) (pv : ℚ × ℚ) (g : ℚ) : ℚ × ℚ :=
  (pv.1 - learning_rate * pv.2, momentum * pv.2 + (1 - momentum) * g)

/-! ### Batched loops (`build` givens, `train`, `test_error`) -/

/-- The row window of batch `i`: the compiled procedures are given the slice
`data[i*batch_size : (i+1)*batch_size]` of each partition (lines 138-139,
150-151, 157-158). -/
def batchSlice {α : Type} (data : List α) (i batch_size : ℕ) : List α :=
  (data.drop (i * batch_size)).take batch_size

/-- Row `r` of a partition with `n_batches` batches is visited by a batched
loop: some loop index `i < n_batches` has `r` inside its batch window
`[i*batch_size, (i+1)*batch_size)`. -/
def visitedRow (n_batches batch_size r : ℕ) : Prop :=
  ∃ i, i < n_batches ∧ i * batch_size ≤ r ∧ r < (i + 1) * batch_size

instance (n_batches batch_size r : ℕ) :
    Decidable (visitedRow n_batches batch_size r) := by
  unfold visitedRow; infer_instance

/-! ### Training bookkeeping (`build` lines 129-131, `train` lines 204-214)

The compiled procedures are opaque backend callables; `train_model` mutates
the trainable parameters as a side effect, so it is modelled as a function
from a backend state and a batch index to a cost and a new backend state,
while `validate_model` reads the state without changing it. -/

/-- The mutable bookkeeping state of a built network: the backend state
(parameters owned by the compiled procedures), the epoch counter and the two
error-history sequences (`build`, lines 129-131). -/
structure NetState (σ : Type) where
  backend : σ
  epochs : ℕ
  train_errors : List ℚ
  valid_errors : List ℚ

/-- The state installed by `build` (lines 129-131): `epochs = 0` and empty
error histories. -/
def NetState.buildInit {σ : Type} (b : σ) : NetState σ :=
  { backend := b, epochs := 0, train_errors := [], valid_errors := [] }

/-- Run a state-mutating compiled procedure once per batch index `0, 1, ...`
in order, collecting the per-batch costs: the list comprehension
`[self.train_model(i) for i in xrange(self.n_train_batches)]` (lines
208-209). -/
def runBatches {σ : Type} (f : σ → ℕ → ℚ × σ) : σ → ℕ → ℕ → List ℚ × σ
  | s, _, 0 => ([], s)
  | s, i, Nat.succ k =>
      let c := f s i
      let rest := runBatches f c.2 (i + 1) k
      (c.1 :: rest.1, rest.2)

/-- `NNet1D.train` (lines 204-214): increment the epoch counter, run the
train procedure over every training batch index, run the validate procedure
over every validation batch index, append the mean of each cost list to the
corresponding history, and return the pair of means. -/
def NNet1D.train {σ : Type} (train_model : σ → ℕ → ℚ × σ)
    (validate_model : σ → ℕ → ℚ) (n_train_batches n_valid_batches : ℕ)
    (s : NetState σ) : (ℚ × ℚ) × NetState σ :=
  let epochs := s.epochs + 1
  let tm := runBatches train_model s.backend 0 n_train_batches
  let train_errors := tm.1
  let valid_errors := (List.range n_valid_batches).map (validate_model tm.2)
  (⟨mean train_errors, mean valid_errors⟩,
   { backend := tm.2
     epochs := epochs
     train_errors := s.train_errors ++ [mean train_errors]
     valid_errors := s.valid_errors ++ [mean valid_errors] })

/-- Iterate `NNet1D.train` a number of times, discarding the returned pairs
(the caller's training loop). -/
def NNet1D.trainIter {σ : Type} (train_model : σ → ℕ → ℚ × σ)
    (validate_model : σ → ℕ → ℚ) (n_train_batches n_valid_batches : ℕ) :
    ℕ → NetState σ → NetState σ
  | 0, s => s
  | Nat.succ k, s =>
      NNet1D.trainIter train_model validate_model n_train_batches
        n_valid_batches k
        (NNet1D.train train_model validate_model n_train_batches
          n_valid_batches s).2

/-! ### `NNet1D.output` (lines 239-251)

Mutation of numpy arrays is made explicit with a small heap: a store of 2-D
arrays addressed by references.  `np.copy` allocates a fresh array,
`ndarray.resize` overwrites an array in place (zero-filling new cells), and
the caller's argument is a reference into the store. -/

/-- A 2-D numpy array: a list of rows of rationals. -/
abbrev Mat := List (List ℚ)

/-- A store of allocated arrays; references are indices. -/
abbrev Heap := List Mat

/-- Dereference an array (junk value `[]` for a dangling reference). -/
def heapRead (h : Heap) (r : ℕ) : Mat := h.getD r []

/-- Overwrite the array behind a reference in place. -/
def heapWrite (h : Heap) (r : ℕ) (v : Mat) : Heap := h.set r v

/-- Allocate a fresh array, returning the new store and its reference. -/
def heapAlloc (h : Heap) (v : Mat) : Heap × ℕ := (h ++ [v], h.length)

/-- Cut a flat data stream into `rows` consecutive rows of `cols` entries. -/
def chunkRows (cols : ℕ) : ℕ → List ℚ → List (List ℚ)
  | 0, _ => []
  | Nat.succ n, data => data.take cols :: chunkRows cols n (data.drop cols)

/-- In-place `ndarray.resize(rows, cols)` on a row-major array: keep the
existing data stream, zero-fill the rest, and reshape to `rows × cols`
(line 248 resizes the copy to `(batch_size, n_in)`). -/
def npResize2D (x : Mat) (rows cols : ℕ) : Mat :=
  chunkRows cols rows (x.flatten ++ List.replicate (rows * cols) 0)

/-- `NNet1D.output` (lines 239-251) acting on the heap: copy the caller's
array `r` into a fresh allocation, record its row count, resize the copy in
place to `batch_size` rows, apply the compiled inference procedure
`output_function` and truncate the result to the original row count. -/
def NNet1D.output (output_function : Mat → Mat) (batch_size n_in : ℕ)
    (h : Heap) (r : ℕ) : Heap × Mat :=
  let a := heapAlloc h (heapRead h r)
  let x_size := (heapRead a.1 a.2).length
  let h2 := heapWrite a.1 a.2 (npResize2D (heapRead a.1 a.2) batch_size n_in)
  (h2, (output_function (heapRead h2 a.2)).take x_size)

/-! ### Construction-and-training pipeline

For the reproducibility property the whole run is expressed as one function
of its inputs.  `np.random.RandomState(seed)` is a deterministic function of
the seed (modelled by `seedFn`); each layer's parameter initialization
consumes the shared generator in sequence (`draw`); the dataset and cost
function determine per-batch cost and gradient oracles.  Both compared
networks use the same library and datafile, so those function parameters are
shared; the run-specific inputs are the seed, the hyperparameters and the
layer-adding call sequence. -/

/-- A layer-adding call made during assembly. -/
inductive LayerCall where
  | convPool (filters filter_length poolsize : ℕ)
  | fullyConnected (output_length : Option ℕ)
  deriving DecidableEq, Repr

/-- Thread the shared random generator through the layer constructors in call
order, concatenating the freshly drawn parameters (spec section 5: the
generator is advanced by each layer's parameter-initialization step). -/
def initLayerParams {ρ : Type} (draw : ρ → LayerCall → List ℚ × ρ) :
    ρ → List LayerCall → List ℚ × ρ
  | r, [] => ([], r)
  | r, c :: cs =>
      let d := draw r c
      let rest := initLayerParams draw d.2 cs
      (d.1 ++ rest.1, rest.2)

/-- Apply `momentumStep` to every (parameter, velocity, gradient) triple of
the flat parameter list. -/
def momentumUpdateList (learning_rate momentum : ℚ) (ps vs gs : List ℚ) :
    List ℚ × List ℚ :=
  let stepped :=
    ((ps.zip vs).zip gs).map (fun x => momentumStep learning_rate momentum x.1 x.2)
  (stepped.map Prod.fst, stepped.map Prod.snd)

/-- One training epoch over batch indices `i, i+1, ...`: each `train_model(i)`
call returns the cost at the current parameters and then applies the momentum
updates with the gradients at those parameters. -/
def trainEpoch (learning_rate momentum : ℚ)
    (gradFn : List ℚ → ℕ → List ℚ) (costFn : List ℚ → ℕ → ℚ) :
    List ℚ × List ℚ → ℕ → ℕ → List ℚ × (List ℚ × List ℚ)
  | pv, _, 0 => ([], pv)
  | pv, i, Nat.succ k =>
      let c := costFn pv.1 i
      let pv2 := momentumUpdateList learning_rate momentum pv.1 pv.2 (gradFn pv.1 i)
      let rest := trainEpoch learning_rate momentum gradFn costFn pv2 (i + 1) k
      (c :: rest.1, rest.2)

/-- The per-epoch (mean train cost, mean validation cost) sequence produced
by repeated `train()` calls: each epoch runs the training batches (mutating
the parameters) and then evaluates the validation batches at the updated
parameters. -/
def trainTrajectory (learning_rate momentum : ℚ)
    (gradFn : List ℚ → ℕ → List ℚ) (costFn vcostFn : List ℚ → ℕ → ℚ)
    (n_train_batches n_valid_batches : ℕ) :
    List ℚ × List ℚ → ℕ → List (ℚ × ℚ)
  | _, 0 => []
  | pv, Nat.succ n =>
      let ep := trainEpoch learning_rate momentum gradFn costFn pv 0 n_train_batches
      let ve := (List.range n_valid_batches).map (vcostFn ep.2.1)
      (mean ep.1, mean ve) ::
        trainTrajectory learning_rate momentum gradFn costFn vcostFn
          n_train_batches n_valid_batches ep.2 n

/-- A complete run: seed the generator, initialize the layer parameters in
call order, and train for a fixed number of epochs; the result is the pair
(initial parameters, per-epoch mean train/validation errors). -/
def runNetwork {ρ : Type} (seedFn : ℕ → ρ) (draw : ρ → LayerCall → List ℚ × ρ)
    (gradFn : List ℚ → ℕ → List ℚ) (costFn vcostFn : List ℚ → ℕ → ℚ)
    (seed : ℕ) (learning_rate momentum : ℚ)
    (n_train_batches n_valid_batches epochs : ℕ) (calls : List LayerCall) :
    List ℚ × List (ℚ × ℚ) :=
  let p0 := (initLayerParams draw (seedFn seed) calls).1
  (p0,
   trainTrajectory learning_rate momentum gradFn costFn vcostFn
     n_train_batches n_valid_batches (p0, p0.map velocityInit) epochs)

/-! ### Helper lemmas -/

theorem heapRead_alloc (h : Heap) (v : Mat) : heapRead (h ++ [v]) h.length = v := by
  simp [heapRead]

theorem heapRead_append_lt (h : Heap) (v : Mat) (r : ℕ) (hr : r < h.length) :
    heapRead (h ++ [v]) r = heapRead h r := by
  simp [heapRead, List.getD, List.getElem?_append, hr]

theorem heapRead_write_ne (h : Heap) (s r : ℕ) (v : Mat) (hne : r ≠ s) :
    heapRead (heapWrite h s v) r = heapRead h r := by
  simp [heapRead, heapWrite, List.getD, List.getElem?_set_ne (Ne.symm hne)]

/-! ### Claims -/

/-- C1: evaluation of `add_fully_connected_layer` after a convolution+pool
layer with `filters = 3`, `filter_length = 2`, `poolsize = 1` on a network
with `n_in = 4`, `batch_size = 5`: the predecessor's 4-D output shape is
`(5, 3, 1, 3)` (filter count `F = 3`, pooled length `3`), but line 102 sets
the new fully-connected layer's input length to
`filter_shape[1] * output_shape[3] = 2 * 3 = 6`, not `F * pooled_length = 9`
as the flattened output requires. -/
theorem fc_input_length_after_conv_eval :
    (ConvPoolLayer.output_shape
      { batch_size := 5, input_number := 1, input_length := 4,
        filter_shape := (3, 2), poolsize := 1 } = (5, 3, 1, 3)) ∧
    (NNet1D.fcInputLength
      (NNet1D.add_conv_pool_layer
        { n_in := 4, n_out := 9, batch_size := 5, layers := [] } 3 2 1) = 6) ∧
    (6 : ℕ) ≠ 3 * 3 ∧
    ((NNet1D.add_fully_connected_layer
        (NNet1D.add_conv_pool_layer
          { n_in := 4, n_out := 9, batch_size := 5, layers := [] } 3 2 1)
        none).layers.getLast?
      = some (Layer.fc { input_length := 6, output_shape := 9 })) := by
  refine ⟨rfl, rfl, by decide, rfl⟩

/-- C2: for every parameter `p0` with velocity accumulator initialized to
`p0 * 0`, learning rate, momentum and gradients `g`, `g2`, the simultaneous
momentum updates step the parameter with the previous velocity and refresh
the velocity afterward: after one step the parameter is unchanged and the
velocity is `(1 - momentum) * g`; after a second step the parameter is
`p0 - learning_rate * ((1 - momentum) * g)`. -/
theorem gradient_updates_momentum_two_steps (lr mo p0 g g2 : ℚ) :
    momentumStep lr mo (p0, velocityInit p0) g = (p0, (1 - mo) * g) ∧
    (momentumStep lr mo (momentumStep lr mo (p0, velocityInit p0) g) g2).1
      = p0 - lr * ((1 - mo) * g) := by
  constructor
  · simp [momentumStep, velocityInit]
  · simp [momentumStep, velocityInit]

/-- C3: for a non-empty layer list, the precondition-checking prefix of
`build` fails with an assertion error exactly when the last layer is not a
fully-connected layer with declared output length `n_out`; when the last
layer is fully connected with the right output length, the checks pass. -/
theorem buildCheck_assertion_iff (layers : List Layer) (n_out : ℕ)
    (h : layers ≠ []) :
    (NNet1D.buildCheck layers n_out = Except.error BuildError.assertionError ↔
      ¬ ∃ f : FullyConnectedLayer,
          layers.getLast? = some (Layer.fc f) ∧ f.output_shape = n_out) ∧
    ((∃ f : FullyConnectedLayer,
        layers.getLast? = some (Layer.fc f) ∧ f.output_shape = n_out) →
      NNet1D.buildCheck layers n_out = Except.ok ()) := by
  rcases hl : layers.getLast? with _ | l
  · exact absurd (List.getLast?_eq_none_iff.mp hl) h
  · rcases l with c | f
    · have hbc : NNet1D.buildCheck layers n_out
          = Except.error BuildError.assertionError := by
        unfold NNet1D.buildCheck; rw [hl]
      refine ⟨?_, ?_⟩
      · rw [hbc]
        constructor
        · rintro - ⟨f, hf, -⟩
          simp at hf
        · intro _
          rfl
      · rintro ⟨f, hf, -⟩
        simp at hf
    · have hbc : NNet1D.buildCheck layers n_out
          = if f.output_shape = n_out then Except.ok ()
            else Except.error BuildError.assertionError := by
        unfold NNet1D.buildCheck; rw [hl]
      by_cases hout : f.output_shape = n_out
      · rw [hbc, if_pos hout]
        refine ⟨?_, fun _ => rfl⟩
        constructor
        · intro habs
          simp at habs
        · intro hne
          exact absurd ⟨f, rfl, hout⟩ hne
      · rw [hbc, if_neg hout]
        refine ⟨?_, ?_⟩
        · constructor
          · rintro - ⟨f2, hf2, ho2⟩
            simp at hf2
            subst hf2
            exact hout ho2
          · intro _
            rfl
        · rintro ⟨f2, hf2, ho2⟩
          simp at hf2
          subst hf2
          exact absurd ho2 hout

/-- Witness for C3: with `n_out = 3`, a last layer of declared output length
2 triggers the assertion error, and one of output length 3 passes. -/
theorem buildCheck_assertion_iff_witness :
    NNet1D.buildCheck [Layer.fc { input_length := 1, output_shape := 2 }] 3
      = Except.error BuildError.assertionError ∧
    NNet1D.buildCheck [Layer.fc { input_length := 1, output_shape := 3 }] 3
      = Except.ok () := by
  constructor
  · refine (buildCheck_assertion_iff
      [Layer.fc { input_length := 1, output_shape := 2 }] 3 (by decide)).1.mpr ?_
    rintro ⟨f, hf, ho⟩
    simp [List.getLast?] at hf
    subst hf
    simp at ho
  · refine (buildCheck_assertion_iff
      [Layer.fc { input_length := 1, output_shape := 3 }] 3 (by decide)).2 ?_
    exact ⟨{ input_length := 1, output_shape := 3 }, rfl, rfl⟩

/-- C9: on an empty layer list the precondition-checking prefix of `build`
fails with the index error raised by `self.layers[-1]`, not with the
documented assertion error. -/
theorem buildCheck_empty_index_error (n_out : ℕ) :
    NNet1D.buildCheck [] n_out = Except.error BuildError.indexError ∧
    NNet1D.buildCheck [] n_out ≠ Except.error BuildError.assertionError := by
  refine ⟨rfl, ?_⟩
  intro hc
  rw [show NNet1D.buildCheck [] n_out = Except.error BuildError.indexError
    from rfl] at hc
  simp at hc

/-- C10: the default `cost_fn` argument of `NNet1D.__init__` is the
one-argument activation function `relu`, `switch(x < 0, 0, x)`, and not the
two-argument reduction costs `sqr_error_cost` or `abs_error_cost`. -/
theorem default_cost_fn_is_relu :
    NNet1D.default_cost_fn = PyFn.unary relu ∧
    (∀ x : ℚ, relu x = if x < 0 then 0 else x) ∧
    NNet1D.default_cost_fn ≠ sqrErrorCostFn ∧
    NNet1D.default_cost_fn ≠ absErrorCostFn := by
  refine ⟨rfl, fun x => rfl, ?_, ?_⟩ <;>
    simp [NNet1D.default_cost_fn, reluFn, sqrErrorCostFn, absErrorCostFn]

/-- A row index contained in batch `i` of the batched loop over `List.range n`
lies in the window `[i*bs, (i+1)*bs)` and below `n`. -/
theorem mem_batchSlice_range (n i bs r : ℕ)
    (h : r ∈ batchSlice (List.range n) i bs) :
    i * bs ≤ r ∧ r < (i + 1) * bs ∧ r < n := by
  obtain ⟨j, hj, hget⟩ := List.mem_iff_getElem.mp h
  have hj2 : j < bs := by
    have hh := hj
    simp [batchSlice, List.length_take] at hh
    exact hh.1
  have hsome : (batchSlice (List.range n) i bs)[j]? = some r := by
    rw [List.getElem?_eq_getElem hj, hget]
  simp [batchSlice, List.getElem?_take, hj2, List.getElem?_drop] at hsome
  have hlt : i * bs + j < n := by
    by_contra hge
    rw [List.getElem?_eq_none (by simpa using Nat.le_of_not_lt hge)] at hsome
    exact Option.noConfusion hsome
  rw [List.getElem?_range hlt, Option.some_inj] at hsome
  subst hsome
  refine ⟨Nat.le_add_right _ _, ?_, hlt⟩
  calc i * bs + j < i * bs + bs := by omega
    _ = (i + 1) * bs := by ring

/-- C4: the constructor sets the three batch counts to the floor of each
partition's row count divided by the batch size, and a remainder row (index
at least `floor(N/bs) * bs`) is inside no batch window of the batched loops:
it satisfies `visitedRow` for no loop index, and it belongs to no slice
`data[i*bs : (i+1)*bs]` handed to a compiled procedure. -/
theorem batch_counts_and_remainder (nTrainRows nValidRows nTestRows bs : ℕ)
    (_hbs : 0 < bs) :
    NNet1D.initBatchCounts nTrainRows nValidRows nTestRows bs
      = (nTrainRows / bs, nValidRows / bs, nTestRows / bs) ∧
    (∀ n r, n / bs * bs ≤ r → ¬ visitedRow (n / bs) bs r) ∧
    (∀ n i r, i < n / bs → n / bs * bs ≤ r →
      r ∉ batchSlice (List.range n) i bs) := by
  refine ⟨rfl, ?_, ?_⟩
  · rintro n r hr ⟨i, hi, -, hlt⟩
    have h1 : (i + 1) * bs ≤ n / bs * bs := Nat.mul_le_mul_right bs hi
    omega
  · intro n i r hi hr hmem
    obtain ⟨-, hlt, -⟩ := mem_batchSlice_range n i bs r hmem
    have h1 : (i + 1) * bs ≤ n / bs * bs := Nat.mul_le_mul_right bs hi
    omega

/-- Witness for C4: partitions of 5, 4 and 3 rows with batch size 2 give
batch counts (2, 2, 1), and remainder row 4 of the training partition is
never visited. -/
theorem batch_counts_and_remainder_witness :
    0 < 2 ∧
    NNet1D.initBatchCounts 5 4 3 2 = (2, 2, 1) ∧
    ¬ visitedRow (5 / 2) 2 4 ∧
    4 ∉ batchSlice (List.range 5) 0 2 := by
  have h := batch_counts_and_remainder 5 4 3 2 (by decide)
  exact ⟨by decide, h.1, h.2.1 5 4 (by decide), h.2.2 5 0 4 (by decide) (by decide)⟩

/-- Iterating `train` adds its iteration count to the epoch counter and to
the length of each error history. -/
theorem trainIter_counts {σ : Type} (tm : σ → ℕ → ℚ × σ) (vm : σ → ℕ → ℚ)
    (nT nV : ℕ) :
    ∀ (n : ℕ) (s : NetState σ),
      (NNet1D.trainIter tm vm nT nV n s).epochs = s.epochs + n ∧
      (NNet1D.trainIter tm vm nT nV n s).train_errors.length
        = s.train_errors.length + n ∧
      (NNet1D.trainIter tm vm nT nV n s).valid_errors.length
        = s.valid_errors.length + n := by
  intro n
  induction n with
  | zero => intro s; simp [NNet1D.trainIter]
  | succ k ih =>
    intro s
    have h := ih (NNet1D.train tm vm nT nV s).2
    have hstep : (NNet1D.train tm vm nT nV s).2.epochs = s.epochs + 1 ∧
        (NNet1D.train tm vm nT nV s).2.train_errors.length
          = s.train_errors.length + 1 ∧
        (NNet1D.train tm vm nT nV s).2.valid_errors.length
          = s.valid_errors.length + 1 := by
      simp [NNet1D.train]
    have hred : NNet1D.trainIter tm vm nT nV (k + 1) s
        = NNet1D.trainIter tm vm nT nV k (NNet1D.train tm vm nT nV s).2 := rfl
    refine ⟨?_, ?_, ?_⟩ <;> rw [hred] <;> omega

/-- C5: each `train()` call increments the epoch counter by one, appends the
mean per-batch training cost and the mean per-batch validation cost to the
respective histories (never shortening or rewriting them), and returns that
pair of means; consequently after `n` calls from the freshly built state the
epoch counter and both history lengths all equal `n`. -/
theorem train_epoch_bookkeeping {σ : Type} (tm : σ → ℕ → ℚ × σ)
    (vm : σ → ℕ → ℚ) (nT nV : ℕ) (s : NetState σ) :
    (NNet1D.train tm vm nT nV s).2.epochs = s.epochs + 1 ∧
    (NNet1D.train tm vm nT nV s).2.train_errors
      = s.train_errors ++ [(NNet1D.train tm vm nT nV s).1.1] ∧
    (NNet1D.train tm vm nT nV s).2.valid_errors
      = s.valid_errors ++ [(NNet1D.train tm vm nT nV s).1.2] ∧
    (NNet1D.train tm vm nT nV s).1.1
      = mean (runBatches tm s.backend 0 nT).1 ∧
    (NNet1D.train tm vm nT nV s).1.2
      = mean ((List.range nV).map (vm (runBatches tm s.backend 0 nT).2)) ∧
    (∀ (n : ℕ) (b : σ),
      (NNet1D.trainIter tm vm nT nV n (NetState.buildInit b)).epochs = n ∧
      (NNet1D.trainIter tm vm nT nV n
        (NetState.buildInit b)).train_errors.length = n ∧
      (NNet1D.trainIter tm vm nT nV n
        (NetState.buildInit b)).valid_errors.length = n) := by
  refine ⟨rfl, rfl, rfl, rfl, rfl, ?_⟩
  intro n b
  have h := trainIter_counts tm vm nT nV n (NetState.buildInit b)
  simpa [NetState.buildInit] using h

/-- C6: when the compiled inference procedure is shape-specialized to
`batch_size` output rows and the caller's array has at most `batch_size`
rows, `output` returns exactly as many rows as the caller's array has. -/
theorem output_row_count (f : Mat → Mat) (bs n_in : ℕ) (h : Heap) (r : ℕ)
    (hf : ∀ m : Mat, (f m).length = bs)
    (hle : (heapRead h r).length ≤ bs) :
    ((NNet1D.output f bs n_in h r).2).length = (heapRead h r).length := by
  simp only [NNet1D.output, heapAlloc, heapRead_alloc, List.length_take, hf]
  omega

/-- Witness for C6: a 2-row array through a batch-size-3 network comes back
with 2 rows. -/
theorem output_row_count_witness :
    (∀ m : Mat, ((fun _ => ([[0], [0], [0]] : Mat)) m).length = 3) ∧
    (heapRead [[[1, 2], [3, 4]]] 0).length ≤ 3 ∧
    ((NNet1D.output (fun _ => ([[0], [0], [0]] : Mat)) 3 2
        [[[1, 2], [3, 4]]] 0).2).length
      = (heapRead [[[1, 2], [3, 4]]] 0).length := by
  refine ⟨fun m => rfl, by decide, ?_⟩
  exact output_row_count _ 3 2 _ 0 (fun m => rfl) (by decide)

/-- C7: `output` never modifies the caller's array: the resize happens on the
fresh copy, so the array behind any live reference reads the same after the
call as before. -/
theorem output_preserves_caller (f : Mat → Mat) (bs n_in : ℕ) (h : Heap)
    (r : ℕ) (hr : r < h.length) :
    heapRead (NNet1D.output f bs n_in h r).1 r = heapRead h r := by
  simp only [NNet1D.output, heapAlloc]
  rw [heapRead_write_ne _ _ _ _ (Nat.ne_of_lt hr),
    heapRead_append_lt _ _ _ hr]

/-- Witness for C7: a concrete call leaves the caller's array unchanged. -/
theorem output_preserves_caller_witness :
    0 < ([[[1, 2], [3, 4]]] : Heap).length ∧
    heapRead (NNet1D.output (fun _ => [[5]]) 3 2 [[[1, 2], [3, 4]]] 0).1 0
      = heapRead [[[1, 2], [3, 4]]] 0 :=
  ⟨by decide, output_preserves_caller _ 3 2 _ 0 (by decide)⟩

/-- C8: two runs sharing the library's generator construction, the layer
initializers and the datafile-derived cost and gradient oracles, and given
equal seeds, hyperparameters and layer-adding call sequences, produce equal
initial parameters and equal per-epoch mean train/validation errors for any
fixed number of epochs. -/
theorem construction_and_training_deterministic {ρ : Type} (seedFn : ℕ → ρ)
    (draw : ρ → LayerCall → List ℚ × ρ) (gradFn : List ℚ → ℕ → List ℚ)
    (costFn vcostFn : List ℚ → ℕ → ℚ) (seed₁ seed₂ : ℕ)
    (lr₁ lr₂ mo₁ mo₂ : ℚ) (nT₁ nT₂ nV₁ nV₂ epochs : ℕ)
    (calls₁ calls₂ : List LayerCall)
    (hseed : seed₁ = seed₂) (hlr : lr₁ = lr₂) (hmo : mo₁ = mo₂)
    (hnT : nT₁ = nT₂) (hnV : nV₁ = nV₂) (hcalls : calls₁ = calls₂) :
    runNetwork seedFn draw gradFn costFn vcostFn seed₁ lr₁ mo₁
        nT₁ nV₁ epochs calls₁
      = runNetwork seedFn draw gradFn costFn vcostFn seed₂ lr₂ mo₂
        nT₂ nV₂ epochs calls₂ := by
  subst hseed hlr hmo hnT hnV hcalls
  rfl

/-- Witness for C8: a concrete pair of identically configured runs. -/
theorem construction_and_training_deterministic_witness :
    runNetwork (fun s => s) (fun r _ => ([(r : ℚ)], r + 1)) (fun p _ => p)
        (fun _ i => (i : ℚ)) (fun _ i => (i : ℚ)) 7 (1/2) (1/4) 2 1 3
        [LayerCall.convPool 3 2 1, LayerCall.fullyConnected none]
      = runNetwork (fun s => s) (fun r _ => ([(r : ℚ)], r + 1)) (fun p _ => p)
        (fun _ i => (i : ℚ)) (fun _ i => (i : ℚ)) 7 (1/2) (1/4) 2 1 3
        [LayerCall.convPool 3 2 1, LayerCall.fullyConnected none] :=
  construction_and_training_deterministic _ _ _ _ _ 7 7 (1/2) (1/2) (1/4)
    (1/4) 2 2 1 1 3 _ _ rfl rfl rfl rfl rfl rfl

end DeepLearnOil
